import Mathlib

/-!
Verification of the Socrates academic-research pipeline (socrates_main.py).

Shallow embedding conventions:
* Python `dict` paper records become the `Paper` structure; optional keys
  (`relevance_score`, `content`) and nullable values (`id`, `published`,
  `pdf_url`, ...) become `Option` fields.
* Python floats are modelled as exact rationals (`Rat`); the scoring formula
  only adds the constants 3.0, 1.0, 0.5 and one quotient, so the algebraic
  relationships between scores are preserved.
* The network, the filesystem and the clock are oracles packaged in `World`
  (deterministic functions fixed for one run); mutable process state
  (`RECENT_PAPERS`, the PDF cache directory, the download directory and the
  log of attempted HTTP requests) is the explicit state `St` threaded through
  every operation.
* Python exceptions are the `Except String` error channel; a `try/except`
  block that converts an exception into an error string is `pyCatch`.
-/

/-! ## Python string primitives -/

/-- Python whitespace (the characters `str.split` and `str.strip` treat as
space: space, tab, newline, carriage return, vertical tab, form feed). -/
def pyIsSpace (c : Char) : Bool :=
  c = ' ' || c = Char.ofNat 9 || c = Char.ofNat 10 || c = Char.ofNat 13 ||
  c = Char.ofNat 11 || c = Char.ofNat 12

/-- ASCII decimal digit test, model of the regex class backslash-d. -/
def pyIsDigit (c : Char) : Bool := '0' ≤ c && c ≤ '9'

/-- Model of Python `str.lower()` (ASCII case folding). -/
def pyLower (s : String) : String := String.mk (s.toList.map Char.toLower)

/-- Model of the Python slice `s[:n]` (by characters, like Python). -/
def pyTake (n : Nat) (s : String) : String := String.mk (s.toList.take n)

/-- Model of Python `s.startswith(pre)`. -/
def pyStartsWith (pre s : String) : Bool := pre.toList.isPrefixOf s.toList

/-- Model of Python `len(s)` (a character count). -/
def pyLen (s : String) : Nat := s.toList.length

/-- Substring occurrence at some position: `needle` is a prefix of some
suffix of `hay`. -/
def listContains (needle : List Char) : List Char → Bool
  | [] => needle.isPrefixOf []
  | c :: cs => needle.isPrefixOf (c :: cs) || listContains needle cs

/-- Model of `needle in haystack` on Python strings (substring containment). -/
def pyIn (needle haystack : String) : Bool :=
  listContains needle.toList haystack.toList

/-- Model of Python `str.strip()`: drop leading and trailing whitespace. -/
def pyStrip (s : String) : String :=
  String.mk (((s.toList.dropWhile pyIsSpace).reverse.dropWhile pyIsSpace).reverse)

/-- Model of Python `str.replace(old, new)` for a single-character `old`
(replace every occurrence). -/
def pyReplaceChar (old new : Char) (s : String) : String :=
  String.mk (s.toList.map (fun c => if c = old then new else c))

/-- Model of Python `str.replace(c, "")`: delete every occurrence of `c`. -/
def pyRemoveChar (old : Char) (s : String) : String :=
  String.mk (s.toList.filter (fun c => c ≠ old))

/-- Helper for `pySplitWS`: accumulate the current word (reversed) while
scanning. -/
def pySplitWSAux : List Char → List Char → List (List Char)
  | acc, [] => if acc.isEmpty then [] else [acc.reverse]
  | acc, c :: cs =>
    if pyIsSpace c then
      if acc.isEmpty then pySplitWSAux [] cs else acc.reverse :: pySplitWSAux [] cs
    else pySplitWSAux (c :: acc) cs

/-- Model of Python `str.split()` with no argument: split on whitespace runs,
discarding empty pieces. -/
def pySplitWS (s : String) : List String :=
  (pySplitWSAux [] s.toList).map String.mk

/-- Helper for `pySplitSep`. -/
def pySplitSepAux (sep : Char) : List Char → List Char → List (List Char)
  | acc, [] => [acc.reverse]
  | acc, c :: cs =>
    if c = sep then acc.reverse :: pySplitSepAux sep [] cs
    else pySplitSepAux sep (c :: acc) cs

/-- Model of Python `str.split(sep)` for a one-character separator: always
returns at least one (possibly empty) piece. -/
def pySplitSep (sep : Char) (s : String) : List String :=
  (pySplitSepAux sep [] s.toList).map String.mk

/-- Model of Python `s.split(sep)[-1]`: the text after the last separator. -/
def lastSegment (s : String) : String :=
  (pySplitSep '/' s).getLastD ""

/-- Digit run to number (the regex capture groups are decimal literals). -/
def digitsToNat (ds : List Char) : Nat :=
  ds.foldl (fun n c => n * 10 + (c.toNat - 48)) 0

/-- Model of Python `int(s)` restricted to what a date prefix can look like:
strip whitespace, accept one optional sign followed by a nonempty digit run,
otherwise fail (Python raises `ValueError`, which the callers catch). -/
def pyInt (s : String) : Option Int :=
  let cs := (s.toList.dropWhile pyIsSpace).reverse.dropWhile pyIsSpace |>.reverse
  let core : List Char → Option Int := fun ds =>
    if ds ≠ [] ∧ ds.all pyIsDigit then some (digitsToNat ds : Int) else none
  match cs with
  | '+' :: rest => core rest
  | '-' :: rest => (core rest).map (fun n => -n)
  | rest => core rest

/-- The apostrophe character, used inside user-visible messages. -/
def squote : String := String.mk [Char.ofNat 39]

/-- A string wrapped in single quotes, model of the f-string piece `'...'`. -/
def quoted (s : String) : String := squote ++ s ++ squote

/-! ## Data model -/

/-- One paper record (the Python dict built by `search_arxiv`).
`relevance_score` and `content` model keys that are absent until
`evaluate_papers` / `read_paper` add them; `id`, `published`, `updated`,
`pdf_url` model values that may be `None`. -/
structure Paper where
  id : Option String
  title : String
  summary : String
  published : Option String
  updated : Option String
  pdf_url : Option String
  authors : List String
  categories : List String
  relevance_score : Option Rat
  content : Option String
deriving DecidableEq

/-- All-empty record, used only as the default of `List.getD` at indices the
code has already bounds-checked. -/
def emptyPaper : Paper :=
  ⟨none, "", "", none, none, none, [], [], none, none⟩

instance : Inhabited Paper := ⟨emptyPaper⟩

/-- A `<link>` element of one Atom entry: its `title` and `href` attributes,
each possibly absent. -/
structure FeedLink where
  titleAttr : Option String
  href : Option String
deriving DecidableEq

/-- One parsed `<entry>` element of the arXiv Atom feed, as the fields
`search_arxiv` reads: each element is either absent (`none`) or present with
its text. -/
structure Entry where
  idText : Option String
  titleText : Option String
  summaryText : Option String
  publishedText : Option String
  updatedText : Option String
  links : List FeedLink
  authorNames : List String
  categoryTerms : List (Option String)
deriving DecidableEq

/-- Mutable process state: the module-level `RECENT_PAPERS` list, the set of
files on disk (PDF cache and download directory), and the log of HTTP
requests issued for PDFs (to make "no second network request" statable). -/
structure St where
  recentPapers : List Paper
  files : List String
  requests : List String
deriving DecidableEq

instance {e a : Type} [DecidableEq e] [DecidableEq a] : DecidableEq (Except e a) := fun x y =>
  match x, y with
  | .ok u, .ok v =>
    if h : u = v then isTrue (by rw [h]) else isFalse (fun hc => h (Except.ok.inj hc))
  | .error u, .error v =>
    if h : u = v then isTrue (by rw [h]) else isFalse (fun hc => h (Except.error.inj hc))
  | .ok _, .error _ => isFalse (fun hc => Except.noConfusion hc)
  | .error _, .ok _ => isFalse (fun hc => Except.noConfusion hc)

/-- Read-only oracles for one run: the current year, the arXiv search
response (either a parse/network failure message or the entry list), the
outcome of fetching one URL, and the text extracted from one PDF file. -/
structure World where
  currentYear : Int
  searchResult : String → Nat → Except String (List Entry)
  fetch : String → Except String Unit
  extract : String → Except String String

/-- Directory constants of the module (the concrete user path is irrelevant;
only the fixed shape of the cache filename matters). -/
def PDF_CACHE_DIR : String := "/home/user/socrates_cache/pdfs"

/-- The user-facing download directory. -/
def DOWNLOAD_DIR : String := "/home/user/Downloads/arxiv_papers"

/-! ## Relevance scorer (`calculate_relevance_score`, lines 132-165) -/

/-- The recency-bonus part of `calculate_relevance_score` (lines 150-163):
`0.5` when `published` is falsy, otherwise `clamp((year-2010)/(currentYear-2010+1), 0.1, 1.0)`
when `int(published[:4])` parses, and `0.5` when the `try` block raises
(unparseable year, or a zero denominator). -/
def recencyBonus (published : Option String) (current_year : Int) : Rat :=
  match published with
  | none => 1/2
  | some s =>
    if s = "" then 1/2
    else
      match pyInt (pyTake 4 s) with
      | none => 1/2
      | some year =>
        if current_year - 2010 + 1 = 0 then 1/2
        else min 1 (max (1/10) (((year : Rat) - 2010) / ((current_year : Rat) - 2010 + 1)))

/-- The body of the term loop of `calculate_relevance_score` (lines 144-148):
`+3.0` when the lowercased term occurs in the (already lowercased) title,
`+1.0` when it occurs in the summary. -/
def termUpdate (title summary : String) (s : Rat) (term : String) : Rat :=
  let s := if pyIn (pyLower term) title then s + 3 else s
  if pyIn (pyLower term) summary then s + 1 else s

/-- `calculate_relevance_score` (lines 132-165): +3.0 per query term occurring
in the lowercased title, +1.0 per query term occurring in the lowercased
summary, plus the recency bonus. -/
def calculate_relevance_score (paper : Paper) (query_terms : List String) (current_year : Int) : Rat :=
  let title := pyLower paper.title
  let summary := pyLower paper.summary
  let score := query_terms.foldl (termUpdate title summary) 0
  score + recencyBonus paper.published current_year

/-! ## Result selector (`evaluate_papers`, lines 167-191) -/

/-- The stop-word set of `evaluate_papers` (line 173). -/
def stop_words : List String := ["and", "the", "in", "of", "a", "to", "for", "is", "on", "by"]

/-- Line 174: `[term for term in query.split() if term.lower() not in stop_words]`. -/
def queryTerms (query : String) : List String :=
  (pySplitWS query).filter (fun term => ¬ stop_words.contains (pyLower term))

/-- The score a paper record carries after `evaluate_papers` ran (the key is
always present then; `0` is only the `Option.getD` default). -/
def getScore (p : Paper) : Rat := p.relevance_score.getD 0

/-- Lines 177-178: every input paper gets `relevance_score` assigned. -/
def scoredPapers (papers : List Paper) (query : String) (current_year : Int) : List Paper :=
  papers.map (fun p =>
    { p with relevance_score := some (calculate_relevance_score p (queryTerms query) current_year) })

/-- Line 181: `sorted(papers, key=..., reverse=True)` — Python `sorted` is a
stable sort, and `reverse=True` keeps ties in input order, which is exactly
insertion sort by the relation "score of the earlier element is at least the
score of the later one". -/
def sortedPapers (papers : List Paper) (query : String) (current_year : Int) : List Paper :=
  List.insertionSort (fun a b => getScore b ≤ getScore a) (scoredPapers papers query current_year)

/-- Line 185: `[p for p in sorted_papers if p['relevance_score'] > 1.0]`. -/
def relevantPapers (papers : List Paper) (query : String) (current_year : Int) : List Paper :=
  (sortedPapers papers query current_year).filter (fun p => decide (1 < getScore p))

/-- `evaluate_papers` (lines 167-191): rank by score and apply the 3-6 band
(lines 186-191). -/
def evaluate_papers (papers : List Paper) (query : String) (current_year : Int) : List Paper :=
  if (relevantPapers papers query current_year).length < 3 then
    (sortedPapers papers query current_year).take (min 3 (sortedPapers papers query current_year).length)
  else if 6 < (relevantPapers papers query current_year).length then
    (relevantPapers papers query current_year).take 6
  else relevantPapers papers query current_year

/-! ## Generic sorting lemmas -/

theorem filter_orderedInsert_score (v : Rat) (a : Paper) (l : List Paper) :
    (List.orderedInsert (fun a b => getScore b ≤ getScore a) a l).filter
        (fun p => decide (getScore p = v)) =
      if getScore a = v then a :: l.filter (fun p => decide (getScore p = v))
      else l.filter (fun p => decide (getScore p = v)) := by
  induction l with
  | nil =>
    by_cases h : getScore a = v <;> simp [List.orderedInsert, List.filter, h]
  | cons b l ih =>
    simp only [List.orderedInsert]
    by_cases hr : getScore b ≤ getScore a
    · rw [if_pos hr]
      by_cases h : getScore a = v <;> by_cases hbv : getScore b = v <;>
        simp [List.filter_cons, h, hbv]
    · rw [if_neg hr]
      have hba : getScore a < getScore b := lt_of_not_le hr
      by_cases h : getScore a = v
      · have hbv : ¬ getScore b = v := by
          intro hb
          rw [h] at hba; rw [hb] at hba
          exact lt_irrefl v hba
        simp [List.filter_cons, h, hbv, ih]
      · by_cases hbv : getScore b = v <;>
          simp [List.filter_cons, h, hbv, ih]

theorem filter_insertionSort_score (v : Rat) (l : List Paper) :
    (List.insertionSort (fun a b => getScore b ≤ getScore a) l).filter
        (fun p => decide (getScore p = v)) =
      l.filter (fun p => decide (getScore p = v)) := by
  induction l with
  | nil => rfl
  | cons a l ih =>
    rw [List.insertionSort, filter_orderedInsert_score, ih]
    by_cases h : getScore a = v <;> simp [List.filter, h]

theorem filter_eq_takeWhile_of_sorted (c : Rat) (l : List Paper)
    (h : l.Pairwise (fun a b => getScore b ≤ getScore a)) :
    l.filter (fun p => decide (c < getScore p)) =
      l.takeWhile (fun p => decide (c < getScore p)) := by
  induction l with
  | nil => rfl
  | cons a l ih =>
    rcases List.pairwise_cons.mp h with ⟨ha, hl⟩
    by_cases hc : c < getScore a
    · simp [List.filter, List.takeWhile, hc, ih hl]
    · have : l.filter (fun p => decide (c < getScore p)) = [] := by
        apply List.filter_eq_nil_iff.mpr
        intro p hp
        simp only [decide_eq_true_eq]
        intro hcp
        exact hc (lt_of_lt_of_le hcp (ha p hp))
      simp [List.filter, List.takeWhile, hc, this]

theorem sortedPapers_sorted (papers : List Paper) (query : String) (year : Int) :
    (sortedPapers papers query year).Pairwise (fun a b => getScore b ≤ getScore a) := by
  haveI : IsTotal Paper (fun a b => getScore b ≤ getScore a) :=
    ⟨fun a b => le_total (getScore b) (getScore a)⟩
  haveI : IsTrans Paper (fun a b => getScore b ≤ getScore a) :=
    ⟨fun _ _ _ hab hbc => le_trans hbc hab⟩
  exact List.sorted_insertionSort _ _

theorem sortedPapers_length (papers : List Paper) (query : String) (year : Int) :
    (sortedPapers papers query year).length = papers.length := by
  unfold sortedPapers scoredPapers
  rw [List.length_insertionSort, List.length_map]

theorem relevantPapers_takeWhile (papers : List Paper) (query : String) (year : Int) :
    relevantPapers papers query year =
      (sortedPapers papers query year).takeWhile (fun p => decide (1 < getScore p)) :=
  filter_eq_takeWhile_of_sorted 1 _ (sortedPapers_sorted papers query year)

theorem relevantPapers_append (papers : List Paper) (query : String) (year : Int) :
    relevantPapers papers query year ++
        (sortedPapers papers query year).dropWhile (fun p => decide (1 < getScore p)) =
      sortedPapers papers query year := by
  rw [relevantPapers_takeWhile]
  exact List.takeWhile_append_dropWhile _ _

theorem evaluate_papers_lt3 (papers : List Paper) (query : String) (year : Int)
    (h3 : (relevantPapers papers query year).length < 3) :
    evaluate_papers papers query year =
      (sortedPapers papers query year).take (min 3 papers.length) := by
  unfold evaluate_papers
  rw [if_pos h3, sortedPapers_length]

theorem evaluate_papers_gt6 (papers : List Paper) (query : String) (year : Int)
    (h6 : 6 < (relevantPapers papers query year).length) :
    evaluate_papers papers query year = (sortedPapers papers query year).take 6 := by
  have h3 : ¬ (relevantPapers papers query year).length < 3 := by omega
  have h6le : 6 ≤ (relevantPapers papers query year).length := le_of_lt h6
  unfold evaluate_papers
  rw [if_neg h3, if_pos h6, ← relevantPapers_append papers query year,
    List.take_append_eq_append_take, Nat.sub_eq_zero_of_le h6le, List.take_zero,
    List.append_nil]

theorem evaluate_papers_mid (papers : List Paper) (query : String) (year : Int)
    (h3 : ¬ (relevantPapers papers query year).length < 3)
    (h6 : ¬ 6 < (relevantPapers papers query year).length) :
    evaluate_papers papers query year = relevantPapers papers query year := by
  unfold evaluate_papers
  rw [if_neg h3, if_neg h6]

theorem evaluate_papers_append (papers : List Paper) (query : String) (year : Int) :
    ∃ rest, evaluate_papers papers query year ++ rest = sortedPapers papers query year := by
  by_cases h3 : (relevantPapers papers query year).length < 3
  · exact ⟨(sortedPapers papers query year).drop (min 3 papers.length), by
      rw [evaluate_papers_lt3 papers query year h3, List.take_append_drop]⟩
  · by_cases h6 : 6 < (relevantPapers papers query year).length
    · exact ⟨(sortedPapers papers query year).drop 6, by
        rw [evaluate_papers_gt6 papers query year h6, List.take_append_drop]⟩
    · exact ⟨(sortedPapers papers query year).dropWhile (fun p => decide (1 < getScore p)), by
        rw [evaluate_papers_mid papers query year h3 h6]
        exact relevantPapers_append papers query year⟩

theorem evaluate_papers_length (papers : List Paper) (query : String) (year : Int) :
    min 3 papers.length ≤ (evaluate_papers papers query year).length ∧
      (evaluate_papers papers query year).length ≤ 6 := by
  have hRS : (relevantPapers papers query year).length ≤ papers.length := by
    have := List.length_filter_le (fun p => decide (1 < getScore p))
      (sortedPapers papers query year)
    have hs := sortedPapers_length papers query year
    unfold relevantPapers
    omega
  by_cases h3 : (relevantPapers papers query year).length < 3
  · rw [evaluate_papers_lt3 papers query year h3, List.length_take,
      sortedPapers_length]
    omega
  · by_cases h6 : 6 < (relevantPapers papers query year).length
    · rw [evaluate_papers_gt6 papers query year h6, List.length_take,
        sortedPapers_length]
      omega
    · rw [evaluate_papers_mid papers query year h3 h6]
      omega

theorem evaluate_papers_pairwise (papers : List Paper) (query : String) (year : Int) :
    (evaluate_papers papers query year).Pairwise (fun a b => getScore b ≤ getScore a) := by
  obtain ⟨rest, hrest⟩ := evaluate_papers_append papers query year
  have hsub : List.Sublist (evaluate_papers papers query year) (sortedPapers papers query year) := by
    rw [← hrest]
    exact List.sublist_append_left _ _
  exact (sortedPapers_sorted papers query year).sublist hsub

/-- C1: `evaluate_papers` returns the papers in descending score order as a
prefix of the stable descending sort of the scored input (so ties keep their
input order, witnessed by the per-score filter equation); with `R` the set of
papers scoring strictly above 1.0 it returns the top `min(3, N)` papers when
`|R| < 3`, the top 6 papers of the full input when `|R| > 6`, and exactly `R`
otherwise; hence the output size is always in `[min(3, N), 6]`. -/
theorem evaluate_papers_selects_band (papers : List Paper) (query : String) (year : Int) :
    (evaluate_papers papers query year).Pairwise (fun a b => getScore b ≤ getScore a)
    ∧ (∃ rest, evaluate_papers papers query year ++ rest = sortedPapers papers query year)
    ∧ (∀ v : Rat,
        (sortedPapers papers query year).filter (fun p => decide (getScore p = v)) =
          (scoredPapers papers query year).filter (fun p => decide (getScore p = v)))
    ∧ ((relevantPapers papers query year).length < 3 →
        evaluate_papers papers query year =
          (sortedPapers papers query year).take (min 3 papers.length))
    ∧ (6 < (relevantPapers papers query year).length →
        evaluate_papers papers query year = (sortedPapers papers query year).take 6)
    ∧ (3 ≤ (relevantPapers papers query year).length →
        (relevantPapers papers query year).length ≤ 6 →
        evaluate_papers papers query year = relevantPapers papers query year)
    ∧ min 3 papers.length ≤ (evaluate_papers papers query year).length
    ∧ (evaluate_papers papers query year).length ≤ 6 := by
  refine ⟨evaluate_papers_pairwise papers query year,
    evaluate_papers_append papers query year,
    fun v => filter_insertionSort_score v (scoredPapers papers query year),
    evaluate_papers_lt3 papers query year,
    evaluate_papers_gt6 papers query year,
    fun h3 h6 => evaluate_papers_mid papers query year (by omega) (by omega),
    (evaluate_papers_length papers query year).1,
    (evaluate_papers_length papers query year).2⟩

/-- A concrete paper record used by several witnesses. -/
def paperAlpha : Paper :=
  { id := some "http://arxiv.org/abs/2301.00001v1"
    title := "alpha beta"
    summary := "gamma"
    published := none
    updated := none
    pdf_url := some "http://arxiv.org/pdf/2301.00001v1"
    authors := ["A. One"]
    categories := ["cs.AI"]
    relevance_score := none
    content := none }

/-- Witness for C1: with one paper the relevant set has size at most 1 < 3,
and the selector returns the top `min(3, 1)` papers of the sorted input. -/
theorem evaluate_papers_selects_band_witness :
    (relevantPapers [paperAlpha] "alpha" 2025).length < 3 ∧
      evaluate_papers [paperAlpha] "alpha" 2025 =
        (sortedPapers [paperAlpha] "alpha" 2025).take (min 3 1) := by
  have ht : queryTerms "alpha" = ["alpha"] := by decide
  have hti : pyIn (pyLower "alpha") (pyLower paperAlpha.title) = true := by decide
  have hsu : pyIn (pyLower "alpha") (pyLower paperAlpha.summary) = false := by decide
  have hscore : calculate_relevance_score paperAlpha (queryTerms "alpha") 2025 = 7/2 := by
    rw [ht]
    unfold calculate_relevance_score
    rw [show paperAlpha.published = none from rfl]
    simp only [List.foldl, termUpdate, hti, hsu, if_true, if_false, recencyBonus]
    norm_num
  have hrel : relevantPapers [paperAlpha] "alpha" 2025
      = [{ paperAlpha with relevance_score := some (7/2) }] := by
    unfold relevantPapers sortedPapers scoredPapers
    simp only [List.map, hscore, List.insertionSort, List.orderedInsert, List.filter]
    norm_num [getScore]
  have h3 : (relevantPapers [paperAlpha] "alpha" 2025).length < 3 := by
    rw [hrel]; norm_num
  exact ⟨h3, (evaluate_papers_selects_band [paperAlpha] "alpha" 2025).2.2.2.1 h3⟩

/-! ## C2: the scoring formula as the specification states it -/

/-- Spec-side per-term contribution (following the claim's words): +3.0 if the
term occurs case-insensitively in the title, plus +1.0 if it occurs in the
summary. -/
def claimTermScore (p : Paper) (t : String) : Rat :=
  (if pyIn (pyLower t) (pyLower p.title) then (3 : Rat) else 0) +
    (if pyIn (pyLower t) (pyLower p.summary) then (1 : Rat) else 0)

/-- Spec-side recency bonus (following the claim's words):
`clamp((publishedYear - 2010) / (currentYear - 2010 + 1), 0.1, 1.0)` when the
first 4 characters of `published` parse as an integer year, exactly `0.5`
when `published` is absent or its year is unparseable. -/
def claimRecencyBonus (published : Option String) (current_year : Int) : Rat :=
  match published with
  | none => 1/2
  | some s =>
    match pyInt (pyTake 4 s) with
    | some year =>
      min 1 (max (1/10) (((year : Rat) - 2010) / ((current_year : Rat) - 2010 + 1)))
    | none => 1/2

theorem foldl_termUpdate (p : Paper) :
    ∀ (terms : List String) (init : Rat),
      terms.foldl (termUpdate (pyLower p.title) (pyLower p.summary)) init =
        init + (terms.map (claimTermScore p)).sum
  | [], init => by simp
  | t :: ts, init => by
    simp only [List.foldl, List.map_cons, List.sum_cons]
    rw [foldl_termUpdate p ts]
    unfold termUpdate claimTermScore
    by_cases h1 : pyIn (pyLower t) (pyLower p.title) <;>
      by_cases h2 : pyIn (pyLower t) (pyLower p.summary) <;>
        simp [h1, h2] <;> ring

theorem recencyBonus_eq_claim (published : Option String) (year : Int)
    (h : 2010 ≤ year) :
    recencyBonus published year = claimRecencyBonus published year := by
  cases published with
  | none => rfl
  | some s =>
    by_cases hs : s = ""
    · subst hs
      have h0 : pyInt (pyTake 4 "") = none := by decide
      simp [recencyBonus, claimRecencyBonus, h0]
    · have hden : ¬ (year - 2010 + 1 = 0) := by omega
      cases hy : pyInt (pyTake 4 s) with
      | none => simp [recencyBonus, claimRecencyBonus, hs, hy]
      | some y => simp [recencyBonus, claimRecencyBonus, hs, hy, hden]

/-- C2: for every paper and query, the score assigned by the scorer equals,
term by term over the stop-word-stripped query, +3.0 for a case-insensitive
title substring match plus +1.0 for a summary match, plus the claimed recency
bonus (clamped ratio for a parseable year, exactly 0.5 otherwise). Stated for
any current year from 2010 on (the code runs with the real clock, which is
past 2010). -/
theorem calculate_relevance_score_formula (p : Paper) (query : String) (year : Int)
    (h : 2010 ≤ year) :
    calculate_relevance_score p (queryTerms query) year =
      ((queryTerms query).map (claimTermScore p)).sum +
        claimRecencyBonus p.published year := by
  simp only [calculate_relevance_score]
  rw [foldl_termUpdate p (queryTerms query) 0, recencyBonus_eq_claim p.published year h,
    zero_add]

/-- A concrete paper with a parseable publication year, for the C2 witness. -/
def paperBeta : Paper :=
  { id := some "http://arxiv.org/abs/2301.00002v1"
    title := "Quantum Widgets"
    summary := "A study of quantum widgets."
    published := some "2023-01-02T00:00:00Z"
    updated := none
    pdf_url := some "http://arxiv.org/pdf/2301.00002v1"
    authors := ["B. Two"]
    categories := ["quant-ph"]
    relevance_score := none
    content := none }

/-- Witness for C2 at a concrete paper, query and year. -/
theorem calculate_relevance_score_formula_witness :
    (2010 : Int) ≤ 2025 ∧
      calculate_relevance_score paperBeta (queryTerms "quantum") 2025 =
        ((queryTerms "quantum").map (claimTermScore paperBeta)).sum +
          claimRecencyBonus paperBeta.published 2025 :=
  ⟨by decide, calculate_relevance_score_formula paperBeta "quantum" 2025 (by decide)⟩

/-! ## Content fetcher (`download_pdf`, `extract_text_from_pdf`, `read_paper`,
lines 259-314) -/

/-- `'id'.split('/')[-1] if paper['id'] else "unknown"` (lines 201, 300, 643):
the guarded short-ID extraction. -/
def shortIdGuarded (p : Paper) : String :=
  match p.id with
  | some s => if s = "" then "unknown" else lastSegment s
  | none => "unknown"

/-- `paper['id'].split('/')[-1]` with no guard (lines 628, 724, 769): raises
`AttributeError` when `id` is `None`. -/
def shortIdUnguarded (p : Paper) : Except String String :=
  match p.id with
  | some s => .ok (lastSegment s)
  | none => .error "AttributeError: NoneType object has no attribute split"

/-- Line 262: `os.path.join(PDF_CACHE_DIR, f"{paper_id}.pdf")`. -/
def cacheFilePath (paper_id : String) : String :=
  PDF_CACHE_DIR ++ "/" ++ paper_id ++ ".pdf"

/-- Python truthiness of an optional string (`None` and `""` are falsy). -/
def truthy (o : Option String) : Bool :=
  match o with
  | some s => s ≠ ""
  | none => false

/-- `download_pdf` (lines 259-279): return the cache path immediately when
the file exists; otherwise attempt the HTTP fetch (logged in `requests`),
creating the cache file on success and returning an error string on failure. -/
def download_pdf (w : World) (st : St) (paper_id pdf_url : String) : String × St :=
  let cache_file := cacheFilePath paper_id
  if st.files.contains cache_file then (cache_file, st)
  else
    match w.fetch pdf_url with
    | .ok _ =>
      (cache_file,
        { st with files := cache_file :: st.files, requests := st.requests ++ [pdf_url] })
    | .error e =>
      ("Error downloading PDF: " ++ e, { st with requests := st.requests ++ [pdf_url] })

/-- `extract_text_from_pdf` (lines 281-292): the page-by-page extraction is
the oracle `w.extract`; its own `try/except` turns failures into an
error-prefixed string. -/
def extract_text_from_pdf (w : World) (pdf_path : String) : String :=
  match w.extract pdf_path with
  | .ok text => text
  | .error e => "Error extracting text from PDF: " ++ e

/-- `read_paper` (lines 294-314): sentinel for a missing URL, otherwise
download (or cache-hit) then extract, storing either the text or the error
string in `content`. -/
def read_paper (w : World) (st : St) (paper : Paper) : Paper × St :=
  if truthy paper.pdf_url = false then
    ({ paper with content := some "PDF URL not available" }, st)
  else
    let pr := download_pdf w st (shortIdGuarded paper) (paper.pdf_url.getD "")
    if pyStartsWith "Error" pr.1 then
      ({ paper with content := some pr.1 }, pr.2)
    else
      ({ paper with content := some (extract_text_from_pdf w pr.1) }, pr.2)

theorem cacheFilePath_not_error (paper_id : String) :
    pyStartsWith "Error" (cacheFilePath paper_id) = false := by
  unfold cacheFilePath PDF_CACHE_DIR pyStartsWith
  simp [String.toList, List.isPrefixOf, String.append]

theorem download_pdf_cache_hit (w : World) (st : St) (pid url : String)
    (h : st.files.contains (cacheFilePath pid) = true) :
    download_pdf w st pid url = (cacheFilePath pid, st) := by
  unfold download_pdf
  have h2 : cacheFilePath pid ∈ st.files := by simpa using h
  simp [h2]

theorem download_pdf_fetch_ok (w : World) (st : St) (pid url : String)
    (hc : st.files.contains (cacheFilePath pid) = false)
    (hf : w.fetch url = .ok ()) :
    download_pdf w st pid url =
      (cacheFilePath pid,
        { st with files := cacheFilePath pid :: st.files,
                  requests := st.requests ++ [url] }) := by
  unfold download_pdf
  have hc2 : ¬ (cacheFilePath pid ∈ st.files) := by simpa using hc
  simp [hc2, hf]

theorem download_pdf_fetch_error (w : World) (st : St) (pid url e : String)
    (hc : st.files.contains (cacheFilePath pid) = false)
    (hf : w.fetch url = .error e) :
    download_pdf w st pid url =
      ("Error downloading PDF: " ++ e, { st with requests := st.requests ++ [url] }) := by
  unfold download_pdf
  have hc2 : ¬ (cacheFilePath pid ∈ st.files) := by simpa using hc
  simp [hc2, hf]

theorem read_paper_no_url (w : World) (st : St) (paper : Paper)
    (h : truthy paper.pdf_url = false) :
    read_paper w st paper = ({ paper with content := some "PDF URL not available" }, st) := by
  unfold read_paper
  simp [h]

theorem read_paper_with_url (w : World) (st : St) (paper : Paper)
    (h : truthy paper.pdf_url = true) :
    read_paper w st paper =
      (if pyStartsWith "Error" (download_pdf w st (shortIdGuarded paper) (paper.pdf_url.getD "")).1 then
        ({ paper with
            content := some (download_pdf w st (shortIdGuarded paper) (paper.pdf_url.getD "")).1 },
          (download_pdf w st (shortIdGuarded paper) (paper.pdf_url.getD "")).2)
      else
        ({ paper with
            content := some (extract_text_from_pdf w
              (download_pdf w st (shortIdGuarded paper) (paper.pdf_url.getD "")).1) },
          (download_pdf w st (shortIdGuarded paper) (paper.pdf_url.getD "")).2)) := by
  unfold read_paper
  simp [h]

/-- C4: content hydration never signals failure as an error outcome. For a
falsy `pdf_url` the record comes back with the sentinel string (not an
error); when the download fails the record comes back with `content` set to
an "Error"-prefixed string; when the download succeeds (cache hit or fresh
fetch), `content` is whatever `extract_text_from_pdf` produced — which is
itself an "Error"-prefixed string exactly on extraction failure. `read_paper`
is a total function of the record, so the only failure signal is the string
prefix of `content`. -/
theorem error_prefix_startsWith (e : String) (tail : String) :
    pyStartsWith "Error" ("Error" ++ tail ++ e) = true := by
  unfold pyStartsWith
  simp [String.append, String.toList, List.isPrefixOf]

theorem read_paper_encodes_errors (w : World) (st : St) (paper : Paper) :
    ((read_paper w st paper).1 =
        { paper with content := (read_paper w st paper).1.content } ∧
      ((read_paper w st paper).1.content).isSome)
    ∧ (truthy paper.pdf_url = false →
        read_paper w st paper = ({ paper with content := some "PDF URL not available" }, st))
    ∧ (∀ u, paper.pdf_url = some u → u ≠ "" →
        st.files.contains (cacheFilePath (shortIdGuarded paper)) = false →
        ∀ e, w.fetch u = .error e →
        (read_paper w st paper).1.content = some ("Error downloading PDF: " ++ e))
    ∧ (∀ u, paper.pdf_url = some u → u ≠ "" →
        (st.files.contains (cacheFilePath (shortIdGuarded paper)) = true ∨ w.fetch u = .ok ()) →
        (read_paper w st paper).1.content =
          some (extract_text_from_pdf w (cacheFilePath (shortIdGuarded paper))))
    ∧ (∀ path e, w.extract path = .error e →
        extract_text_from_pdf w path = "Error extracting text from PDF: " ++ e) := by
  refine ⟨?_, read_paper_no_url w st paper, ?_, ?_, ?_⟩
  · by_cases hu : truthy paper.pdf_url
    · rw [read_paper_with_url w st paper hu]
      by_cases hs : pyStartsWith "Error"
          (download_pdf w st (shortIdGuarded paper) (paper.pdf_url.getD "")).1 <;>
        simp [hs]
    · rw [read_paper_no_url w st paper (by simpa using hu)]
      simp
  · intro u hu hne hc e hf
    have ht : truthy paper.pdf_url = true := by simp [truthy, hu, hne]
    rw [read_paper_with_url w st paper ht]
    have hget : paper.pdf_url.getD "" = u := by simp [hu]
    rw [hget, download_pdf_fetch_error w st _ u e hc hf]
    have hpre : pyStartsWith "Error" ("Error downloading PDF: " ++ e) = true := by
      have := error_prefix_startsWith e " downloading PDF: "
      simpa [String.append_assoc] using this
    simp [hpre]
  · intro u hu hne hok
    have ht : truthy paper.pdf_url = true := by simp [truthy, hu, hne]
    rw [read_paper_with_url w st paper ht]
    have hget : paper.pdf_url.getD "" = u := by simp [hu]
    rw [hget]
    rcases hok with hc | hok
    · rw [download_pdf_cache_hit w st _ u hc]
      simp [cacheFilePath_not_error]
    · by_cases hc : st.files.contains (cacheFilePath (shortIdGuarded paper)) = true
      · rw [download_pdf_cache_hit w st _ u hc]
        simp [cacheFilePath_not_error]
      · rw [download_pdf_fetch_ok w st _ u (by simpa using hc) hok]
        simp [cacheFilePath_not_error]
  · intro path e he
    unfold extract_text_from_pdf
    rw [he]

/-- Empty process state: no cached papers, no files, no requests yet. -/
def stEmpty : St := ⟨[], [], []⟩

/-- A world whose network and extraction always succeed. -/
def wOk : World :=
  { currentYear := 2025
    searchResult := fun _ _ => .ok []
    fetch := fun _ => .ok ()
    extract := fun _ => .ok "SAMPLE TEXT" }

/-- A paper record with no `pdf_url`. -/
def paperNoUrl : Paper :=
  { emptyPaper with id := some "http://arxiv.org/abs/9901.00001v1",
                    title := "no pdf", summary := "none here" }

/-- Witness for C4: hydrating a record with no `pdf_url` returns the record
with the sentinel content and an unchanged state. -/
theorem read_paper_encodes_errors_witness :
    read_paper wOk stEmpty paperNoUrl =
      ({ paperNoUrl with content := some "PDF URL not available" }, stEmpty) :=
  (read_paper_encodes_errors wOk stEmpty paperNoUrl).2.1 (by decide)

theorem isPrefixOf_append_left (a : List Char) :
    ∀ (b c : List Char), a.isPrefixOf b = true → a.isPrefixOf (b ++ c) = true := by
  induction a with
  | nil => intro b c _; simp [List.isPrefixOf]
  | cons x xs ih =>
    intro b c h
    cases b with
    | nil => simp [List.isPrefixOf] at h
    | cons y ys =>
      simp only [List.isPrefixOf, List.cons_append, Bool.and_eq_true] at h ⊢
      exact ⟨h.1, ih ys c h.2⟩

theorem toList_append (a b : String) : (a ++ b).toList = a.toList ++ b.toList := by
  simp [String.append, String.toList]

theorem error_download_starts (e : String) :
    pyStartsWith "Error downloading PDF:" ("Error downloading PDF: " ++ e) = true := by
  unfold pyStartsWith
  rw [toList_append]
  exact isPrefixOf_append_left _ _ _ (by decide)

theorem error_download_full_starts (e : String) :
    pyStartsWith "Error" ("Error downloading PDF: " ++ e) = true := by
  unfold pyStartsWith
  rw [toList_append]
  exact isPrefixOf_append_left _ _ _ (by decide)

/-- C7: content fetching is idempotent through the on-disk PDF cache. If the
first hydration of a paper did not fail at the download step, then running
`read_paper` again for the same paper from the resulting state returns the
identical record and the identical state — in particular the request log is
unchanged, so no second network request happens — because `download_pdf`
returns the existing cache-file path whenever a file for that short ID
already exists. -/
theorem read_paper_idempotent (w : World) (st : St) (p : Paper) (u : String)
    (hu : p.pdf_url = some u) (hne : u ≠ "")
    (hsucc : pyStartsWith "Error downloading PDF:"
      (((read_paper w st p).1.content).getD "") = false) :
    read_paper w (read_paper w st p).2 p = read_paper w st p
    ∧ (read_paper w (read_paper w st p).2 p).2.requests = (read_paper w st p).2.requests
    ∧ (∀ (st2 : St) (pid url2 : String),
        st2.files.contains (cacheFilePath pid) = true →
        download_pdf w st2 pid url2 = (cacheFilePath pid, st2)) := by
  have ht : truthy p.pdf_url = true := by simp [truthy, hu, hne]
  have hget : p.pdf_url.getD "" = u := by simp [hu]
  have hmain : read_paper w (read_paper w st p).2 p = read_paper w st p := by
    by_cases hc : st.files.contains (cacheFilePath (shortIdGuarded p)) = true
    · have h1 : (read_paper w st p).2 = st := by
        rw [read_paper_with_url w st p ht, hget,
          download_pdf_cache_hit w st (shortIdGuarded p) u hc]
        simp [cacheFilePath_not_error]
      rw [h1]
    · have hcf : st.files.contains (cacheFilePath (shortIdGuarded p)) = false := by
        simpa using hc
      cases hf : w.fetch u with
      | error e =>
        exfalso
        have hres : read_paper w st p =
            ({ p with content := some ("Error downloading PDF: " ++ e) },
              { st with requests := st.requests ++ [u] }) := by
          rw [read_paper_with_url w st p ht, hget,
            download_pdf_fetch_error w st (shortIdGuarded p) u e hcf hf]
          simp [error_download_full_starts e]
        rw [hres] at hsucc
        simp only [Option.getD_some] at hsucc
        rw [error_download_starts e] at hsucc
        cases hsucc
      | ok v =>
        have hf2 : w.fetch u = .ok () := by cases v; exact hf
        have hres : read_paper w st p =
            ({ p with content := some (extract_text_from_pdf w
                (cacheFilePath (shortIdGuarded p))) },
              { st with files := cacheFilePath (shortIdGuarded p) :: st.files,
                        requests := st.requests ++ [u] }) := by
          rw [read_paper_with_url w st p ht, hget,
            download_pdf_fetch_ok w st (shortIdGuarded p) u hcf hf2]
          simp [cacheFilePath_not_error]
        have hc2 : (read_paper w st p).2.files.contains
            (cacheFilePath (shortIdGuarded p)) = true := by
          rw [hres]
          simp
        rw [hres] at hc2
        rw [hres]
        rw [read_paper_with_url w _ p ht, hget,
          download_pdf_cache_hit w _ (shortIdGuarded p) u hc2]
        simp [cacheFilePath_not_error]
  exact ⟨hmain, by rw [hmain],
    fun st2 pid url2 h => download_pdf_cache_hit w st2 pid url2 h⟩

/-- Witness for C7 at a concrete paper and world: the second hydration
reproduces the first one exactly. -/
theorem read_paper_idempotent_witness :
    read_paper wOk (read_paper wOk stEmpty paperAlpha).2 paperAlpha =
      read_paper wOk stEmpty paperAlpha :=
  (read_paper_idempotent wOk stEmpty paperAlpha "http://arxiv.org/pdf/2301.00001v1"
    (by decide) (by decide) (by decide)).1

/-! ## Batch download (`download_papers_to_user`, lines 605-673) -/

/-- The characters removed by line 644,
`re.sub(r'[\\\\/*?:"<>|]', "", paper['title'])`. -/
def illegalChars : List Char :=
  [Char.ofNat 92, '/', '*', '?', ':', Char.ofNat 34, '<', '>', '|']

/-- Line 644: strip the illegal filename characters, then truncate to 100
characters. -/
def safeTitle (title : String) : String :=
  pyTake 100 (String.mk (title.toList.filter (fun c => ¬ illegalChars.contains c)))

/-- Line 645: `f"{paper_id}_{safe_title}.pdf"`. -/
def downloadFileName (p : Paper) : String :=
  shortIdGuarded p ++ "_" ++ safeTitle p.title ++ ".pdf"

/-- Line 646: `os.path.join(DOWNLOAD_DIR, filename)`. -/
def downloadFilePath (p : Paper) : String :=
  DOWNLOAD_DIR ++ "/" ++ downloadFileName p

/-- Result of the download loop of `download_papers_to_user`
(lines 634-659). -/
structure DlOut where
  success_count : Nat
  failed_count : Nat
  downloaded : List (String × String × String)
  st : St
deriving DecidableEq

/-- The download loop (lines 638-659): a paper without a truthy `pdf_url` is
counted failed with no request; otherwise the fetch is attempted (request
logged), and on success the file is written and the triple
`(paper_id, title, filepath)` recorded. -/
def dl_loop (w : World) (st : St) : List Paper → DlOut
  | [] => ⟨0, 0, [], st⟩
  | p :: ps =>
    if truthy p.pdf_url = false then
      let r := dl_loop w st ps
      ⟨r.success_count, r.failed_count + 1, r.downloaded, r.st⟩
    else
      let url := p.pdf_url.getD ""
      let st2 := { st with requests := st.requests ++ [url] }
      match w.fetch url with
      | .ok _ =>
        let st3 := { st2 with files := downloadFilePath p :: st2.files }
        let r := dl_loop w st3 ps
        ⟨r.success_count + 1, r.failed_count,
          (shortIdGuarded p, p.title, downloadFilePath p) :: r.downloaded, r.st⟩
      | .error _ =>
        let r := dl_loop w st2 ps
        ⟨r.success_count, r.failed_count + 1, r.downloaded, r.st⟩

/-- Whether fetching a URL succeeds in world `w`. -/
def fetchOk (w : World) (url : String) : Bool :=
  match w.fetch url with
  | .ok _ => true
  | .error _ => false

/-- C9: in a batch download every attempted request corresponds to a paper
with a truthy `pdf_url` (papers without one are counted failed with no
request), every recorded download uses the filename
`{shortId}_{safeTitle}.pdf` under the download directory, and the sanitized
title is at most 100 characters long and contains none of the illegal
filename characters. -/
theorem dl_loop_filenames_and_failures (w : World) (st : St) (papers : List Paper) :
    ((dl_loop w st papers).st.requests =
      st.requests ++ papers.filterMap
        (fun p => if truthy p.pdf_url = true then some (p.pdf_url.getD "") else none))
    ∧ ((dl_loop w st papers).downloaded = papers.filterMap
        (fun p =>
          if truthy p.pdf_url && fetchOk w (p.pdf_url.getD "") then
            some (shortIdGuarded p, p.title,
              DOWNLOAD_DIR ++ "/" ++ (shortIdGuarded p ++ "_" ++ safeTitle p.title ++ ".pdf"))
          else none))
    ∧ ((dl_loop w st papers).failed_count = (papers.filter
        (fun p => !(truthy p.pdf_url && fetchOk w (p.pdf_url.getD "")))).length)
    ∧ (∀ t, pyLen (safeTitle t) ≤ 100)
    ∧ (∀ t c, c ∈ (safeTitle t).toList → illegalChars.contains c = false) := by
  have hsafe1 : ∀ t, pyLen (safeTitle t) ≤ 100 := by
    intro t
    unfold safeTitle pyTake pyLen
    simp [List.length_take]
  have hsafe2 : ∀ t c, c ∈ (safeTitle t).toList → illegalChars.contains c = false := by
    intro t c hc
    unfold safeTitle pyTake at hc
    simp only [String.toList] at hc
    have hmem := List.mem_of_mem_take hc
    have := List.mem_filter.mp hmem
    simpa using this.2
  refine ⟨?_, ?_, ?_, hsafe1, hsafe2⟩ <;>
  · induction papers generalizing st with
    | nil => simp [dl_loop]
    | cons p ps ih =>
      by_cases hu : truthy p.pdf_url = true
      · cases hf : w.fetch (p.pdf_url.getD "") with
        | ok v =>
          cases v
          simp [dl_loop, hu, hf, fetchOk, ih, List.filterMap_cons, downloadFilePath,
            downloadFileName, List.append_assoc]
        | error e =>
          simp [dl_loop, hu, hf, fetchOk, ih, List.filterMap_cons, List.append_assoc]
      · have hu2 : truthy p.pdf_url = false := by simpa using hu
        simp [dl_loop, hu2, ih, List.filterMap_cons]

/-- Witness for C9: a title containing `:` and `?` yields a sanitized title
without them; the character kept is not illegal. -/
theorem dl_loop_filenames_and_failures_witness :
    'a' ∈ (safeTitle "a:b?c").toList ∧ illegalChars.contains 'a' = false :=
  ⟨by decide,
    (dl_loop_filenames_and_failures wOk stEmpty []).2.2.2.2 "a:b?c" 'a' (by decide)⟩

/-- `try/except` wrapper: the tools turn any exception of their body into an
error string prefixed with the operation name (their `except` clause). -/
def pyCatch (pre : String) (r : Except String String × St) : Except String String × St :=
  match r with
  | (.ok s, st) => (.ok s, st)
  | (.error e, st) => (.ok (pre ++ e), st)

theorem pyCatch_isOk (pre : String) (r : Except String String × St) :
    ((pyCatch pre r).1).isOk = true := by
  unfold pyCatch
  rcases r with ⟨res, st⟩
  cases res <;> rfl

/-- Line 628: `[p for p in RECENT_PAPERS if p['id'].split('/')[-1] in
specific_ids]` — raises when a paper's `id` is `None`. -/
def filterByIds (ids : List String) : List Paper → Except String (List Paper)
  | [] => .ok []
  | p :: ps =>
    match shortIdUnguarded p with
    | .error e => .error e
    | .ok sid =>
      match filterByIds ids ps with
      | .error e => .error e
      | .ok rest => .ok (if ids.contains sid then p :: rest else rest)

/-- Lines 664-665: the per-paper lines of the download report. -/
def dlReportLines : List (String × String × String) → String
  | [] => ""
  | (pid, title, path) :: rest =>
    "- " ++ title ++ " (arXiv:" ++ pid ++ ")\n  Saved to: " ++ path ++ "\n" ++
      dlReportLines rest

/-- The body of `download_papers_to_user` (lines 617-670) before its
`except` clause. -/
def download_papers_body (w : World) (st : St) (specific_ids : Option (List String))
    (download_all : Bool) : Except String String × St :=
  if st.recentPapers = [] ∧ (specific_ids = none ∨ specific_ids = some []) then
    (.ok "No papers have been searched or specified for download. Please search for papers first.",
      st)
  else
    let papersE : Except String (List Paper) :=
      if download_all = true ∧ st.recentPapers ≠ [] then .ok st.recentPapers
      else
        match specific_ids with
        | some ids => if ids = [] then .ok [] else filterByIds ids st.recentPapers
        | none => .ok []
    match papersE with
    | .error e => (.error e, st)
    | .ok papers_to_download =>
      if papers_to_download = [] then (.ok "No valid papers found to download.", st)
      else
        let r := dl_loop w st papers_to_download
        let result := "Downloaded " ++ toString r.success_count ++ " papers to " ++
          DOWNLOAD_DIR ++ ":\n\n"
        let result := result ++ dlReportLines r.downloaded
        let result :=
          if 0 < r.failed_count then
            result ++ "\nFailed to download " ++ toString r.failed_count ++ " papers."
          else result
        (.ok result, r.st)

/-- `download_papers_to_user` (lines 605-673). -/
def download_papers_to_user (w : World) (st : St) (specific_ids : Option (List String))
    (download_all : Bool) : Except String String × St :=
  pyCatch "Error downloading papers: " (download_papers_body w st specific_ids download_all)

/-- C10: with a non-empty cache, an explicitly empty ID list and
`download_all = False` select nothing: the call performs no download, leaves
the state (cache, files, request log) unchanged and returns the
informational string. -/
theorem download_empty_ids_selects_nothing (w : World) (st : St)
    (h : st.recentPapers ≠ []) :
    download_papers_to_user w st (some []) false =
      (.ok "No valid papers found to download.", st) := by
  unfold download_papers_to_user download_papers_body pyCatch
  have h1 : ¬ (st.recentPapers = [] ∧
      ((some [] : Option (List String)) = none ∨
        (some ([] : List String) : Option (List String)) = some [])) := by
    intro hcon
    exact h hcon.1
  rw [if_neg h1]
  have h2 : ¬ ((false : Bool) = true ∧ st.recentPapers ≠ []) := by
    intro hcon
    cases hcon.1
  rw [if_neg h2]
  simp

/-- Witness for C10 at a one-paper cache. -/
theorem download_empty_ids_selects_nothing_witness :
    download_papers_to_user wOk ⟨[paperAlpha], [], []⟩ (some []) false =
      (.ok "No valid papers found to download.", ⟨[paperAlpha], [], []⟩) :=
  download_empty_ids_selects_nothing wOk ⟨[paperAlpha], [], []⟩ (by decide)

/-! ## Intent parser (`detect_download_intent`, lines 316-350, and the
number-extraction regexes of lines 702-713 / 752-761) -/

/-- One token of the regular expressions used by the intent detector: a
literal, an alternation of literals, an optional literal, or a nonempty
digit run. -/
inductive Tok where
  | lit (s : String)
  | alt (ss : List String)
  | opt (s : String)
  | digits
deriving DecidableEq

/-- Consume a literal character sequence, returning what follows. -/
def dropLit : List Char → List Char → Option (List Char)
  | [], cs => some cs
  | _ :: _, [] => none
  | a :: as, c :: cs => if a = c then dropLit as cs else none

/-- Whether the token sequence matches a prefix of `cs` (the fuel bounds the
recursion depth; `toks.length + cs.length + 1` always suffices because each
step consumes a token or a character). -/
def matchToks : Nat → List Tok → List Char → Bool
  | 0, _, _ => false
  | _ + 1, [], _ => true
  | fuel + 1, .lit s :: rest, cs =>
    match dropLit s.toList cs with
    | some cs2 => matchToks fuel rest cs2
    | none => false
  | fuel + 1, .alt ss :: rest, cs =>
    ss.any (fun s =>
      match dropLit s.toList cs with
      | some cs2 => matchToks fuel rest cs2
      | none => false)
  | fuel + 1, .opt s :: rest, cs =>
    (match dropLit s.toList cs with
     | some cs2 => matchToks fuel rest cs2
     | none => false) || matchToks fuel rest cs
  | fuel + 1, .digits :: rest, cs =>
    match cs with
    | [] => false
    | c :: cs2 => pyIsDigit c && (matchToks fuel rest cs2 || matchToks fuel (.digits :: rest) cs2)

/-- `re.search` as a boolean: does the token sequence match at any start
position? -/
def searchToks (toks : List Tok) : List Char → Bool
  | [] => matchToks (toks.length + 1) toks []
  | c :: cs =>
    matchToks (toks.length + (c :: cs).length + 1) toks (c :: cs) || searchToks toks cs

/-- The ten download regex patterns of `detect_download_intent`
(lines 326-337), in order. -/
def download_patterns : List (List Tok) :=
  [ [.lit "download ", .alt ["all", "the", "these", "those"], .lit " ",
      .alt ["papers", "articles", "pdfs"]],
    [.lit "download ", .opt "the ", .lit "paper", .opt "s"],
    [.lit "can ", .opt "you ", .lit "download"],
    [.lit "save ", .alt ["the", "these", "those"], .lit " paper", .opt "s"],
    [.lit "get ", .alt ["the", "these", "those"], .lit " paper", .opt "s"],
    [.lit "download paper ", .digits],
    [.lit "download papers"],
    [.lit "download all"],
    [.lit "download arxiv"],
    [.lit "please download"] ]

/-- The keyword fallback of `detect_download_intent` (line 345). -/
def download_keywords : List String :=
  ["download", "save papers", "get papers", "papers to my computer"]

/-- `detect_download_intent` (lines 316-350): lowercase the text, try the
regex patterns, then the keyword fallback. -/
def detect_download_intent (text : String) : Bool :=
  let text_lower := pyLower text
  download_patterns.any (fun p => searchToks p text_lower.toList) ||
    download_keywords.any (fun k => pyIn k text_lower)

/-- Maximal digit run at the front (the greedy capture of a `\d+` group). -/
def takeDigitsAux : List Char → List Char → List Char × List Char
  | acc, [] => (acc.reverse, [])
  | acc, c :: cs =>
    if pyIsDigit c then takeDigitsAux (c :: acc) cs else (acc.reverse, c :: cs)

/-- Maximal digit prefix and the remaining characters. -/
def takeDigits (cs : List Char) : List Char × List Char := takeDigitsAux [] cs

/-- Skip optional whitespace (a greedy whitespace-star). -/
def dropSpaces (cs : List Char) : List Char := cs.dropWhile pyIsSpace

/-- Match the pattern of a single paper reference, a literal "paper " plus
digits, at this position; return the captured number and the match length. -/
def matchSingleAt (cs : List Char) : Option (Nat × Nat) :=
  match dropLit ("paper ").toList cs with
  | none => none
  | some cs2 =>
    let ds := (takeDigits cs2).1
    if ds = [] then none else some (digitsToNat ds, 6 + ds.length)

/-- `re.search(r"paper (\d+)", ...)` (line 702): the leftmost match. -/
def searchSingle : List Char → Option Nat
  | [] => none
  | c :: cs =>
    match matchSingleAt (c :: cs) with
    | some (n, _) => some n
    | none => searchSingle cs

/-- Match `papers (\d+)(?:\s*-\s*|\s*to\s*)(\d+)` (line 709) at this
position. The greedy digit runs and whitespace runs cannot overlap with the
separator alternatives, so this deterministic scan agrees with the regex
engine. -/
def matchRangeAt (cs : List Char) : Option (Nat × Nat) :=
  match dropLit ("papers ").toList cs with
  | none => none
  | some cs2 =>
    let p1 := takeDigits cs2
    if p1.1 = [] then none
    else
      match dropSpaces p1.2 with
      | '-' :: rest3 =>
        let ds2 := (takeDigits (dropSpaces rest3)).1
        if ds2 = [] then none else some (digitsToNat p1.1, digitsToNat ds2)
      | 't' :: 'o' :: rest3 =>
        let ds2 := (takeDigits (dropSpaces rest3)).1
        if ds2 = [] then none else some (digitsToNat p1.1, digitsToNat ds2)
      | _ => none

/-- Leftmost match of the range pattern of `parse_download_request`. -/
def searchRange : List Char → Option (Nat × Nat)
  | [] => none
  | c :: cs =>
    match matchRangeAt (c :: cs) with
    | some r => some r
    | none => searchRange cs

/-- The paper numbers `parse_download_request` extracts (lines 702-713): the
first "paper N" match, then the whole inclusive range of the first
"papers N-M" / "papers N to M" match. -/
def paper_numbers_prq (message : String) : List Nat :=
  let tl := (pyLower message).toList
  (match searchSingle tl with
   | some n => [n]
   | none => []) ++
  (match searchRange tl with
   | some r => List.range' r.1 (r.2 + 1 - r.1)
   | none => [])

/-- `re.finditer(r"paper (\d+)", ...)` (line 752): all non-overlapping
matches, scanning left to right and resuming after each match. -/
def allSinglesAux : Nat → List Char → List Nat
  | 0, _ => []
  | _ + 1, [] => []
  | fuel + 1, c :: cs =>
    match matchSingleAt (c :: cs) with
    | some (n, len) => n :: allSinglesAux fuel (List.drop len (c :: cs))
    | none => allSinglesAux fuel cs

/-- All "paper N" matches of `handle_paper_command`. -/
def allSingles (cs : List Char) : List Nat := allSinglesAux cs.length cs

/-- Match `papers (\d+)[- ](\d+)` (line 757, `handle_paper_command`'s
variant: the separator is exactly one dash or space) at this position. -/
def matchRangeHpcAt (cs : List Char) : Option (Nat × Nat) :=
  match dropLit ("papers ").toList cs with
  | none => none
  | some cs2 =>
    let p1 := takeDigits cs2
    if p1.1 = [] then none
    else
      match p1.2 with
      | c :: rest2 =>
        if c = '-' ∨ c = ' ' then
          let ds2 := (takeDigits rest2).1
          if ds2 = [] then none else some (digitsToNat p1.1, digitsToNat ds2)
        else none
      | [] => none

/-- Leftmost match of `handle_paper_command`'s range pattern. -/
def searchRangeHpc : List Char → Option (Nat × Nat)
  | [] => none
  | c :: cs =>
    match matchRangeHpcAt (c :: cs) with
    | some r => some r
    | none => searchRangeHpc cs

/-- The paper numbers `handle_paper_command` extracts (lines 751-761). -/
def paper_numbers_hpc (command_lower : String) : List Nat :=
  allSingles command_lower.toList ++
    (match searchRangeHpc command_lower.toList with
     | some r => List.range' r.1 (r.2 + 1 - r.1)
     | none => [])

/-- The ID-resolution loop (lines 721-725 and 766-770): keep the 1-based
indices inside `[1, len(cache)]`, dropping the rest silently, and read
`cache[num-1]['id'].split('/')[-1]` — which raises when that `id` is
`None`. -/
def collectIds (cache : List Paper) : List Nat → Except String (List String)
  | [] => .ok []
  | n :: ns =>
    if 1 ≤ n ∧ n ≤ cache.length then
      match shortIdUnguarded (cache.getD (n - 1) emptyPaper) with
      | .error e => .error e
      | .ok sid =>
        match collectIds cache ns with
        | .error e => .error e
        | .ok rest => .ok (sid :: rest)
    else collectIds cache ns

/-- The body of `parse_download_request` (lines 697-730) before its `except`
clause. -/
def parse_download_request_body (w : World) (st : St) (message : String) :
    Except String String × St :=
  if detect_download_intent message = false then
    (.ok ("No download request detected. To download papers, ask me to " ++
      quoted "download these papers" ++ " or similar."), st)
  else
    let paper_numbers := paper_numbers_prq message
    if paper_numbers ≠ [] then
      if st.recentPapers = [] then
        (.ok "No papers have been searched yet. Please search for papers first.", st)
      else
        match collectIds st.recentPapers paper_numbers with
        | .error e => (.error e, st)
        | .ok specific_ids => download_papers_to_user w st (some specific_ids) false
    else
      download_papers_to_user w st none true

/-- `parse_download_request` (lines 686-733). -/
def parse_download_request (w : World) (st : St) (message : String) :
    Except String String × St :=
  pyCatch "Error processing download request: " (parse_download_request_body w st message)

/-- `handle_paper_command` (lines 735-776). This is the one tool with no
`try/except` around its body: an exception of the resolution loop
propagates. -/
def handle_paper_command (w : World) (st : St) (command : String) :
    Except String String × St :=
  let command_lower := pyLower command
  if detect_download_intent command_lower then
    let paper_numbers := paper_numbers_hpc command_lower
    if paper_numbers ≠ [] then
      match collectIds st.recentPapers paper_numbers with
      | .error e => (.error e, st)
      | .ok specific_ids => download_papers_to_user w st (some specific_ids) false
    else
      download_papers_to_user w st none true
  else
    (.ok ("Unknown paper command. For downloads, please say " ++
      quoted "download these papers" ++ " or " ++ quoted "download paper X" ++ "."), st)

/-! ## Search client (`search_arxiv`, lines 62-130) -/

/-- The per-entry parsing of `search_arxiv` (lines 87-121): missing elements
degrade to the fixed defaults, the first link whose `title` attribute is
"pdf" provides `pdf_url` (possibly `None` when its `href` is missing),
authors and categories collect the found elements (category terms that are
missing or empty are dropped by the comprehension's truthiness filter). -/
def parseEntry (e : Entry) : Paper :=
  { id := e.idText
    title :=
      match e.titleText with
      | some t => pyReplaceChar '\n' ' ' (pyStrip t)
      | none => "No title"
    summary :=
      match e.summaryText with
      | some t => pyReplaceChar '\n' ' ' (pyStrip t)
      | none => "No summary"
    published := e.publishedText
    updated := e.updatedText
    pdf_url := (e.links.find? (fun l => decide (l.titleAttr = some "pdf"))).bind FeedLink.href
    authors := e.authorNames
    categories := e.categoryTerms.filterMap (fun o =>
      match o with
      | some t => if t = "" then none else some t
      | none => none)
    relevance_score := none
    content := none }

/-- `search_arxiv` (lines 62-130): the HTTP fetch and XML parse are the
oracle; a failure is re-raised with the transformed message of
lines 125-130, a success maps `parseEntry` over every entry (no record is
discarded). -/
def search_arxiv (w : World) (query : String) (max_results : Nat) :
    Except String (List Paper) :=
  match w.searchResult query max_results with
  | .ok entries => .ok (entries.map parseEntry)
  | .error e =>
    if pyIn "opensearch" e then
      .error "ArXiv API XML parsing error with opensearch namespace. Using direct element paths instead."
    else
      .error ("Error searching ArXiv: " ++ e)

/-! ## Citation formatter (lines 193-257) -/

/-- Lines 197-199 (also 220-222, 247-249): up to three authors, then
", et al.". -/
def fmtAuthors (authors : List String) : String :=
  let a := String.intercalate ", " (authors.take 3)
  if 3 < authors.length then a ++ ", et al." else a

/-- One line of `format_citations` (lines 246-255). -/
def citeLine (i : Nat) (p : Paper) : String :=
  let authors := fmtAuthors p.authors
  let paper_id := shortIdGuarded p
  let year :=
    match p.published with
    | some s => if s = "" then "n.d." else pyTake 4 s
    | none => "n.d."
  toString i ++ ". " ++ authors ++ " (" ++ year ++ "). " ++ p.title ++
    ". arXiv:" ++ paper_id ++ ".\n"

/-- The numbered loop of `format_citations`. -/
def citeLines : Nat → List Paper → String
  | _, [] => ""
  | i, p :: ps => citeLine i p ++ citeLines (i + 1) ps

/-- `format_citations` (lines 231-257): empty input yields the empty string,
otherwise a References header and numbered citations. -/
def format_citations (papers : List Paper) : String :=
  if papers = [] then "" else "\n\n## References\n" ++ citeLines 1 papers

/-- `format_paper_summary` (lines 193-214). -/
def format_paper_summary (p : Paper) : String :=
  let authors := fmtAuthors p.authors
  let paper_id := shortIdGuarded p
  let s := "Title: " ++ p.title ++ "\n"
  let s := s ++ "Authors: " ++ authors ++ "\n"
  let s := s ++ "ArXiv ID: " ++ paper_id ++ "\n"
  let s := if truthy p.pdf_url then s ++ "URL: " ++ p.pdf_url.getD "" ++ "\n" else s
  let s := if truthy p.published then
      s ++ "Published: " ++ pyTake 10 (p.published.getD "") ++ "\n"
    else s
  let s := if p.categories ≠ [] then
      s ++ "Categories: " ++ String.intercalate ", " p.categories ++ "\n\n"
    else s
  s ++ "Summary: " ++ pyTake 300 p.summary ++ "...\n"

/-- Model of the f-string format `{x:.2f}` on a nonnegative score (the exact
float rounding mode is immaterial to every claim; only that some decimal
rendering is appended). -/
def fmt2 (q : Rat) : String :=
  let n := (q * 100).floor.toNat
  toString (n / 100) ++ "." ++
    (if n % 100 < 10 then "0" ++ toString (n % 100) else toString (n % 100))

/-! ## Pipeline orchestrator (the MCP tools, lines 352-733) -/

/-- The numbered result lines of `arxiv_search` (lines 371-380). -/
def searchLines : Nat → List Paper → String
  | _, [] => ""
  | i, p :: ps =>
    let s := toString i ++ ". " ++ p.title ++ "\n"
    let s := s ++ "   Authors: " ++ fmtAuthors p.authors ++ "\n"
    let s := if truthy p.pdf_url then s ++ "   URL: " ++ p.pdf_url.getD "" ++ "\n" else s
    let s := if truthy p.published then
        s ++ "   Published: " ++ pyTake 10 (p.published.getD "") ++ "\n\n"
      else s
    s ++ searchLines (i + 1) ps

/-- The body of `arxiv_search` (lines 361-388): store the raw results in the
cache, then format them. -/
def arxiv_search_body (w : World) (st : St) (query : String) (max_results : Nat) :
    Except String String × St :=
  match search_arxiv w query max_results with
  | .error e => (.error e, st)
  | .ok papers =>
    let st := { st with recentPapers := papers }
    if papers = [] then (.ok ("No papers found matching " ++ quoted query ++ "."), st)
    else
      (.ok ("Found " ++ toString papers.length ++ " papers matching " ++ quoted query ++
        ":\n\n" ++ searchLines 1 papers ++ format_citations papers ++
        "\nTo download any of these papers, simply ask me to " ++
        quoted "download these papers" ++ " or " ++ quoted "download paper X" ++ "."), st)

/-- `arxiv_search` (lines 352-391). -/
def arxiv_search (w : World) (st : St) (query : String) (max_results : Nat) :
    Except String String × St :=
  pyCatch "Error searching ArXiv: " (arxiv_search_body w st query max_results)

/-- The per-paper lines of `analyze_papers` (lines 421-424). -/
def analyzeLines : Nat → List Paper → String
  | _, [] => ""
  | i, p :: ps =>
    "--- Paper " ++ toString i ++ " ---\n" ++ format_paper_summary p ++
      "Relevance Score: " ++ fmt2 (getScore p) ++ "\n\n" ++ analyzeLines (i + 1) ps

/-- The body of `analyze_papers` (lines 403-432). -/
def analyze_papers_body (w : World) (st : St) (query : String) (max_results : Nat) :
    Except String String × St :=
  match search_arxiv w query max_results with
  | .error e => (.error e, st)
  | .ok all_papers =>
    if all_papers = [] then (.ok ("No papers found matching " ++ quoted query ++ "."), st)
    else
      let relevant_papers := evaluate_papers all_papers query w.currentYear
      let st := { st with recentPapers := relevant_papers }
      (.ok ("Analysis of papers matching " ++ quoted query ++ ":\n\n" ++
        "Found " ++ toString relevant_papers.length ++ " relevant papers out of " ++
        toString all_papers.length ++ " results.\n\n" ++
        analyzeLines 1 relevant_papers ++ format_citations relevant_papers ++
        "\nTo download these papers, simply ask me to " ++
        quoted "download these papers" ++ "."), st)

/-- `analyze_papers` (lines 393-435). -/
def analyze_papers (w : World) (st : St) (query : String) (max_results : Nat) :
    Except String String × St :=
  pyCatch "Error analyzing papers: " (analyze_papers_body w st query max_results)

/-- The per-paper processing loop of `read_papers` (lines 466-485):
returns the accumulated report text, the successfully read papers and the
final state. -/
def readLoop (w : World) : Nat → St → List Paper → String × List Paper × St
  | _, st, [] => ("", [], st)
  | i, st, p :: ps =>
    let s := "--- Processing Paper " ++ toString i ++ ": " ++ p.title ++ " ---\n"
    if truthy p.pdf_url then
      let s := s ++ "Downloading and reading paper (ArXiv ID: " ++ shortIdGuarded p ++
        ")...\n"
      let pr := read_paper w st p
      let content := (pr.1.content).getD ""
      if pyStartsWith "Error" content then
        let r := readLoop w (i + 1) pr.2 ps
        (s ++ "Error: " ++ content ++ "\n\n" ++ r.1, r.2.1, r.2.2)
      else
        let s := s ++ "Successfully read paper. Content length: " ++
          toString (pyLen content) ++ " characters\n" ++
          "Content preview: " ++ pyTake 200 content ++ "...\n\n"
        let r := readLoop w (i + 1) pr.2 ps
        (s ++ r.1, pr.1 :: r.2.1, r.2.2)
    else
      let r := readLoop w (i + 1) st ps
      (s ++ "PDF URL not available for this paper.\n\n" ++ r.1, r.2.1, r.2.2)

/-- The body of `read_papers` (lines 447-501). -/
def read_papers_body (w : World) (st : St) (query : String) (max_results : Nat) :
    Except String String × St :=
  match search_arxiv w query max_results with
  | .error e => (.error e, st)
  | .ok all_papers =>
    if all_papers = [] then (.ok ("No papers found matching " ++ quoted query ++ "."), st)
    else
      let relevant_papers := evaluate_papers all_papers query w.currentYear
      let st := { st with recentPapers := relevant_papers }
      let r := readLoop w 1 st relevant_papers
      let result := "Reading the most relevant papers for " ++ quoted query ++ ":\n\n" ++
        "Selected " ++ toString relevant_papers.length ++ " papers out of " ++
        toString all_papers.length ++ " results based on relevance.\n\n" ++ r.1
      let result :=
        if r.2.1 ≠ [] then
          result ++ "Paper Reading Complete\n\n" ++
            "Successfully read " ++ toString r.2.1.length ++ " papers on " ++
            quoted query ++ ".\n" ++
            "You can now ask more specific questions about the paper contents.\n" ++
            format_citations relevant_papers ++
            "\nTo download these papers, simply reply with " ++
            quoted "download these papers" ++ "."
        else
          result ++ "Could not read any papers. Please try a different query or check for errors above."
      (.ok result, r.2.2)

/-- `read_papers` (lines 437-504). -/
def read_papers (w : World) (st : St) (query : String) (max_results : Nat) :
    Except String String × St :=
  pyCatch "Error reading papers: " (read_papers_body w st query max_results)

/-- The hydration loop of `research_question` (lines 534-538). -/
def hydrateAll (w : World) : St → List Paper → List Paper × St
  | st, [] => ([], st)
  | st, p :: ps =>
    if truthy p.pdf_url then
      let pr := read_paper w st p
      let r := hydrateAll w pr.2 ps
      (pr.1 :: r.1, r.2)
    else hydrateAll w st ps

/-- The top-3 key-paper lines of `research_question` (lines 547-560). -/
def rqLines : Nat → List Paper → String
  | _, [] => ""
  | i, p :: ps =>
    let s := toString i ++ ". " ++ p.title ++ "\n"
    let s := if truthy p.published then
        s ++ "   Published: " ++ pyTake 10 (p.published.getD "") ++ "\n"
      else s
    let s := s ++ "   Summary: " ++ pyTake 200 p.summary ++ "...\n"
    let content := p.content.getD ""
    let s :=
      if content ≠ "" ∧ pyStartsWith "Error" content = false then
        s ++ "   Excerpt: " ++ pyReplaceChar '\n' ' ' (pyTake 300 content) ++ "...\n\n"
      else s ++ "\n"
    s ++ rqLines (i + 1) ps

/-- The body of `research_question` (lines 516-568). -/
def research_question_body (w : World) (st : St) (question : String) (max_results : Nat) :
    Except String String × St :=
  let query := pyRemoveChar '!' (pyRemoveChar '?' question)
  match search_arxiv w query max_results with
  | .error e => (.error e, st)
  | .ok all_papers =>
    if all_papers = [] then
      (.ok ("No papers found relevant to your question: " ++ quoted question), st)
    else
      let relevant_papers := evaluate_papers all_papers query w.currentYear
      let st := { st with recentPapers := relevant_papers }
      let hy := hydrateAll w st relevant_papers
      (.ok ("Research findings on: " ++ question ++ "\n\n" ++
        "I analyzed " ++ toString hy.1.length ++
        " relevant papers from ArXiv to answer your question.\n\n" ++
        "Key papers on this topic:\n\n" ++ rqLines 1 (hy.1.take 3) ++
        format_citations relevant_papers ++
        "\nTo download these papers, simply ask me to " ++
        quoted "download these papers" ++ "."), hy.2)

/-- `research_question` (lines 506-571). -/
def research_question (w : World) (st : St) (question : String) (max_results : Nat) :
    Except String String × St :=
  pyCatch "Error researching question: " (research_question_body w st question max_results)

/-- The body of `academic_research` (lines 584-600): strip `?`/`!`, append a
year qualifier when `year_from > 2010`, then delegate to the complete
`research_question` tool (passing the refined query as the question). -/
def academic_research_body (w : World) (st : St) (question : String) (max_results : Nat)
    (year_from : Int) : Except String String × St :=
  let query := pyRemoveChar '!' (pyRemoveChar '?' question)
  let query :=
    if 2010 < year_from then query ++ " " ++ toString year_from ++ "-" ++ toString w.currentYear
    else query
  let pr := research_question w st query max_results
  match pr.1 with
  | .ok papers_result =>
    (.ok ("# Academic Research on: " ++ question ++ "\n\n" ++
      "I" ++ squote ++ "ve conducted specialized academic research using ArXiv papers. Here are my findings:\n\n" ++
      papers_result), pr.2)
  | .error e => (.error e, pr.2)

/-- `academic_research` (lines 573-603). -/
def academic_research (w : World) (st : St) (question : String) (max_results : Nat)
    (year_from : Int) : Except String String × St :=
  pyCatch "Error conducting academic research: "
    (academic_research_body w st question max_results year_from)

/-- `download_recent_papers` (lines 675-684). -/
def download_recent_papers (w : World) (st : St) : Except String String × St :=
  download_papers_to_user w st none true

/-! ## C6: search-client tolerance of missing fields -/

/-- C6 (amended): the search client keeps every record (one parsed paper per
entry, in order) and fills missing fields with the fixed defaults the code
uses: the placeholder strings "No title" / "No summary" for a missing title
or summary (not the empty string), the empty sequence for missing authors;
and the absence of a pdf-typed link does not fail, it leaves `pdf_url`
unset. -/
theorem search_arxiv_keeps_records (w : World) (query : String) (n : Nat)
    (entries : List Entry) (h : w.searchResult query n = .ok entries) :
    search_arxiv w query n = .ok (entries.map parseEntry)
    ∧ (∀ e : Entry,
        (e.titleText = none → (parseEntry e).title = "No title")
        ∧ (e.summaryText = none → (parseEntry e).summary = "No summary")
        ∧ ((parseEntry e).authors = e.authorNames)
        ∧ ((∀ l ∈ e.links, l.titleAttr ≠ some "pdf") → (parseEntry e).pdf_url = none)) := by
  constructor
  · unfold search_arxiv
    rw [h]
  · intro e
    refine ⟨?_, ?_, rfl, ?_⟩
    · intro ht
      unfold parseEntry
      rw [ht]
    · intro hs
      unfold parseEntry
      rw [hs]
    · intro hl
      unfold parseEntry
      simp only
      have : e.links.find? (fun l => decide (l.titleAttr = some "pdf")) = none := by
        apply List.find?_eq_none.mpr
        intro l hm
        simpa using hl l hm
      rw [this]
      rfl

/-- An entry with no title, no summary, no authors and no links. -/
def entryBare : Entry :=
  ⟨some "http://arxiv.org/abs/7777.00001v1", none, none, none, none, [], [], []⟩

/-- Counterexample for C6 as stated: the default for a missing title is the
string "No title", not the empty string (and likewise "No summary"). -/
theorem search_arxiv_keeps_records_cex :
    entryBare.titleText = none ∧
      (parseEntry entryBare).title = "No title" ∧
      ¬ ((parseEntry entryBare).title = "") := by decide

/-- A world whose search always returns the single bare entry. -/
def wBareEntry : World :=
  { wOk with searchResult := fun _ _ => .ok [entryBare] }

/-- Witness for C6 at a concrete world and entry. -/
theorem search_arxiv_keeps_records_witness :
    search_arxiv wBareEntry "q" 10 = .ok [parseEntry entryBare] ∧
      (parseEntry entryBare).authors = [] ∧
      (parseEntry entryBare).pdf_url = none :=
  ⟨(search_arxiv_keeps_records wBareEntry "q" 10 [entryBare] rfl).1,
    ((search_arxiv_keeps_records wBareEntry "q" 10 [entryBare] rfl).2 entryBare).2.2.1,
    ((search_arxiv_keeps_records wBareEntry "q" 10 [entryBare] rfl).2 entryBare).2.2.2
      (by decide)⟩

/-! ## C5: download-target resolution -/

theorem pyCatch_of_isOk (pre : String) (r : Except String String × St)
    (h : (r.1).isOk = true) : pyCatch pre r = r := by
  rcases r with ⟨res, st⟩
  cases res with
  | ok s => rfl
  | error e => simp [Except.isOk, Except.toBool] at h

theorem collectIds_eq (cache : List Paper)
    (h : ∀ p ∈ cache, (p.id).isSome = true) :
    ∀ nums : List Nat,
      collectIds cache nums =
        .ok ((nums.filter (fun n => decide (1 ≤ n ∧ n ≤ cache.length))).map
          (fun n => lastSegment (((cache.getD (n - 1) emptyPaper).id).getD ""))) := by
  intro nums
  induction nums with
  | nil => rfl
  | cons n ns ih =>
    unfold collectIds
    by_cases hb : 1 ≤ n ∧ n ≤ cache.length
    · rw [if_pos hb]
      have hlt : n - 1 < cache.length := by omega
      have hmem : cache.getD (n - 1) emptyPaper ∈ cache := by
        rw [List.getD_eq_getElem?_getD, List.getElem?_eq_getElem hlt]
        exact List.getElem_mem hlt
      have hid := h _ hmem
      obtain ⟨s, hcid⟩ := Option.isSome_iff_exists.mp hid
      rw [ih]
      generalize hgen : cache.getD (n - 1) emptyPaper = p0 at hcid ⊢
      rw [List.getD_eq_getElem?_getD] at hgen
      simp only [shortIdUnguarded, hcid, List.filter_cons]
      simp [hb, hgen, hcid]
    · rw [if_neg hb, ih]
      simp [List.filter_cons, hb]

/-- C5: with download intent detected, `parse_download_request` resolves a
"paper N" reference and every index of an inclusive "papers N-M" /
"papers N to M" range to the cached paper at 1-based position N
(`cache[N-1]`), silently dropping indices outside `[1, len(cache)]`; and
with no numeric reference at all it downloads every cached paper. Stated for
caches whose records carry a non-null `id` (the resolution loop reads
`['id'].split(...)`). -/
theorem parse_download_request_resolves (w : World) (st : St) (message : String)
    (hint : detect_download_intent message = true)
    (hids : ∀ p ∈ st.recentPapers, (p.id).isSome = true) :
    (paper_numbers_prq message = [] →
      parse_download_request w st message = download_papers_to_user w st none true)
    ∧ (paper_numbers_prq message ≠ [] → st.recentPapers ≠ [] →
      parse_download_request w st message =
        download_papers_to_user w st
          (some (((paper_numbers_prq message).filter
              (fun n => decide (1 ≤ n ∧ n ≤ st.recentPapers.length))).map
            (fun n => lastSegment (((st.recentPapers.getD (n - 1) emptyPaper).id).getD ""))))
          false) := by
  have hint2 : ¬ (detect_download_intent message = false) := by simp [hint]
  constructor
  · intro hn
    unfold parse_download_request parse_download_request_body
    rw [if_neg hint2]
    simp only [hn, ne_eq, not_true_eq_false, if_false]
    exact pyCatch_of_isOk _ _ (pyCatch_isOk _ _)
  · intro hn hcache
    unfold parse_download_request parse_download_request_body
    rw [if_neg hint2]
    simp only [ne_eq, hn, not_false_iff, if_true, if_neg hcache,
      collectIds_eq st.recentPapers hids (paper_numbers_prq message)]
    exact pyCatch_of_isOk _ _ (pyCatch_isOk _ _)

/-- A five-paper cache whose short IDs are 0001 .. 0005. -/
def cacheFive : List Paper :=
  [ { emptyPaper with id := some "http://arxiv.org/abs/0001" },
    { emptyPaper with id := some "http://arxiv.org/abs/0002" },
    { emptyPaper with id := some "http://arxiv.org/abs/0003" },
    { emptyPaper with id := some "http://arxiv.org/abs/0004" },
    { emptyPaper with id := some "http://arxiv.org/abs/0005" } ]

/-- The state holding the five-paper cache. -/
def stFive : St := ⟨cacheFive, [], []⟩

/-- Witness for C5: with a cache of 5 papers, "download papers 2-4" resolves
to exactly the IDs at 1-based positions 2, 3 and 4. -/
theorem parse_download_request_resolves_witness :
    detect_download_intent "download papers 2-4" = true ∧
      paper_numbers_prq "download papers 2-4" = [2, 3, 4] ∧
      parse_download_request wOk stFive "download papers 2-4" =
        download_papers_to_user wOk stFive (some ["0002", "0003", "0004"]) false := by
  refine ⟨by decide, by decide, ?_⟩
  have h := (parse_download_request_resolves wOk stFive "download papers 2-4"
    (by decide) (by decide)).2 (by decide) (by decide)
  have hids : ((paper_numbers_prq "download papers 2-4").filter
      (fun n => decide (1 ≤ n ∧ n ≤ stFive.recentPapers.length))).map
        (fun n => lastSegment (((stFive.recentPapers.getD (n - 1) emptyPaper).id).getD ""))
      = ["0002", "0003", "0004"] := by decide
  rw [hids] at h
  exact h

/-! ## C3: the tools catch their exceptions (all but one) -/

theorem pyCatch_snd (pre : String) (r : Except String String × St) :
    (pyCatch pre r).2 = r.2 := by
  rcases r with ⟨res, st⟩
  cases res <;> rfl

/-- C3 (amended): every externally exposed operation returns an ok string
for every input and cache state — except `handle_paper_command`, the one
tool whose body is not wrapped in `try/except`; it is guaranteed to return a
string only when every cached record carries a non-null `id` (otherwise its
resolution loop raises `AttributeError` and the exception propagates, see
the counterexample). -/
theorem tools_never_propagate :
    (∀ (w : World) (st : St) (q : String) (n : Nat),
        ((arxiv_search w st q n).1).isOk = true)
    ∧ (∀ (w : World) (st : St) (q : String) (n : Nat),
        ((analyze_papers w st q n).1).isOk = true)
    ∧ (∀ (w : World) (st : St) (q : String) (n : Nat),
        ((read_papers w st q n).1).isOk = true)
    ∧ (∀ (w : World) (st : St) (q : String) (n : Nat),
        ((research_question w st q n).1).isOk = true)
    ∧ (∀ (w : World) (st : St) (q : String) (n : Nat) (y : Int),
        ((academic_research w st q n y).1).isOk = true)
    ∧ (∀ (w : World) (st : St) (ids : Option (List String)) (b : Bool),
        ((download_papers_to_user w st ids b).1).isOk = true)
    ∧ (∀ (w : World) (st : St), ((download_recent_papers w st).1).isOk = true)
    ∧ (∀ (w : World) (st : St) (m : String),
        ((parse_download_request w st m).1).isOk = true)
    ∧ (∀ (w : World) (st : St) (c : String),
        (∀ p ∈ st.recentPapers, (p.id).isSome = true) →
        ((handle_paper_command w st c).1).isOk = true) := by
  refine ⟨fun w st q n => pyCatch_isOk _ _, fun w st q n => pyCatch_isOk _ _,
    fun w st q n => pyCatch_isOk _ _, fun w st q n => pyCatch_isOk _ _,
    fun w st q n y => pyCatch_isOk _ _, fun w st ids b => pyCatch_isOk _ _,
    fun w st => pyCatch_isOk _ _, fun w st m => pyCatch_isOk _ _, ?_⟩
  intro w st c hids
  simp only [handle_paper_command]
  by_cases hd : detect_download_intent (pyLower c) = true
  · rw [if_pos hd]
    by_cases hn : paper_numbers_hpc (pyLower c) ≠ []
    · rw [if_pos hn, collectIds_eq st.recentPapers hids]
      exact pyCatch_isOk _ _
    · rw [if_neg hn]
      exact pyCatch_isOk _ _
  · rw [if_neg hd]
    rfl

/-- A cached record whose `id` is `None` (a feed entry with no id element
produces exactly this). -/
def paperNoneId : Paper :=
  { emptyPaper with id := none, pdf_url := some "http://arxiv.org/pdf/x" }

/-- The cache state holding that record. -/
def stBadId : St := ⟨[paperNoneId], [], []⟩

/-- Counterexample for C3 as stated: `handle_paper_command` propagates an
exception (the `AttributeError` of `None.split`) when the referenced cached
paper has a null `id` — it has no `try/except` of its own. -/
theorem tools_never_propagate_cex :
    (handle_paper_command wOk stBadId "download paper 1").1 =
        .error "AttributeError: NoneType object has no attribute split"
      ∧ ((handle_paper_command wOk stBadId "download paper 1").1).isOk = false := by
  decide

/-- Witness for C3: on a cache whose records all carry ids, also
`handle_paper_command` returns an ok string. -/
theorem tools_never_propagate_witness :
    ((handle_paper_command wOk stFive "download paper 1").1).isOk = true :=
  tools_never_propagate.2.2.2.2.2.2.2.2 wOk stFive "download paper 1" (by decide)

/-! ## C8: the cache-scoring invariant -/

theorem mem_evaluate_scored (papers : List Paper) (q : String) (y : Int) (p : Paper)
    (hp : p ∈ evaluate_papers papers q y) : (p.relevance_score).isSome = true := by
  obtain ⟨rest, hrest⟩ := evaluate_papers_append papers q y
  have hmem : p ∈ sortedPapers papers q y := by
    rw [← hrest]
    exact List.mem_append_left rest hp
  unfold sortedPapers at hmem
  have hperm := List.perm_insertionSort (fun a b => getScore b ≤ getScore a)
    (scoredPapers papers q y)
  have hmem2 : p ∈ scoredPapers papers q y := hperm.mem_iff.mp hmem
  unfold scoredPapers at hmem2
  obtain ⟨q0, _, rfl⟩ := List.mem_map.mp hmem2
  rfl

theorem download_pdf_keeps_cache (w : World) (st : St) (pid url : String) :
    (download_pdf w st pid url).2.recentPapers = st.recentPapers := by
  simp only [download_pdf]
  by_cases hc : st.files.contains (cacheFilePath pid) = true
  · rw [if_pos hc]
  · rw [if_neg hc]
    cases w.fetch url <;> rfl

theorem read_paper_keeps_cache (w : World) (st : St) (p : Paper) :
    (read_paper w st p).2.recentPapers = st.recentPapers := by
  simp only [read_paper]
  split
  · rfl
  · split
    · exact download_pdf_keeps_cache w st _ _
    · exact download_pdf_keeps_cache w st _ _

theorem readLoop_keeps_cache (w : World) :
    ∀ (papers : List Paper) (i : Nat) (st : St),
      (readLoop w i st papers).2.2.recentPapers = st.recentPapers := by
  intro papers
  induction papers with
  | nil => intro i st; rfl
  | cons p ps ih =>
    intro i st
    simp only [readLoop]
    split
    · split
      · rw [ih]
        exact read_paper_keeps_cache w st p
      · rw [ih]
        exact read_paper_keeps_cache w st p
    · exact ih (i + 1) st

theorem hydrateAll_keeps_cache (w : World) :
    ∀ (papers : List Paper) (st : St),
      (hydrateAll w st papers).2.recentPapers = st.recentPapers := by
  intro papers
  induction papers with
  | nil => intro st; rfl
  | cons p ps ih =>
    intro st
    simp only [hydrateAll]
    split
    · rw [ih]
      exact read_paper_keeps_cache w st p
    · exact ih st

/-- C8 (amended): after a successful `arxiv_search` the cache holds the raw
parsed results in source order and none of them carries a `relevance_score`;
after an `analyze_papers`, `read_papers` or `research_question` whose search
succeeded with a non-empty result list, every cached record carries a
`relevance_score` (the cache holds the selector's output). When the search
fails or returns no papers these operations leave the cache untouched, so
the unconditional claim fails — see the counterexample. -/
theorem cache_scoring_states :
    (∀ (w : World) (st : St) (q : String) (n : Nat) (entries : List Entry),
        w.searchResult q n = .ok entries →
        ((arxiv_search w st q n).2.recentPapers = entries.map parseEntry
          ∧ ∀ p ∈ (arxiv_search w st q n).2.recentPapers, p.relevance_score = none))
    ∧ (∀ (w : World) (st : St) (q : String) (n : Nat) (entries : List Entry),
        w.searchResult q n = .ok entries → entries ≠ [] →
        ((analyze_papers w st q n).2.recentPapers =
            evaluate_papers (entries.map parseEntry) q w.currentYear
          ∧ ∀ p ∈ (analyze_papers w st q n).2.recentPapers,
              (p.relevance_score).isSome = true))
    ∧ (∀ (w : World) (st : St) (q : String) (n : Nat) (entries : List Entry),
        w.searchResult q n = .ok entries → entries ≠ [] →
        ∀ p ∈ (read_papers w st q n).2.recentPapers, (p.relevance_score).isSome = true)
    ∧ (∀ (w : World) (st : St) (question : String) (n : Nat) (entries : List Entry),
        w.searchResult (pyRemoveChar '!' (pyRemoveChar '?' question)) n = .ok entries →
        entries ≠ [] →
        ∀ p ∈ (research_question w st question n).2.recentPapers,
          (p.relevance_score).isSome = true) := by
  refine ⟨?_, ?_, ?_, ?_⟩
  · intro w st q n entries h
    have hsa : search_arxiv w q n = .ok (entries.map parseEntry) := by
      unfold search_arxiv
      rw [h]
    have hsnd : (arxiv_search w st q n).2 = (arxiv_search_body w st q n).2 :=
      pyCatch_snd _ _
    have hbody : (arxiv_search_body w st q n).2.recentPapers = entries.map parseEntry := by
      simp only [arxiv_search_body, hsa]
      split <;> rfl
    refine ⟨by rw [hsnd, hbody], ?_⟩
    intro p hp
    rw [hsnd, hbody] at hp
    obtain ⟨e, _, rfl⟩ := List.mem_map.mp hp
    rfl
  · intro w st q n entries h hne
    have hsa : search_arxiv w q n = .ok (entries.map parseEntry) := by
      unfold search_arxiv
      rw [h]
    have hnil : ¬ (entries.map parseEntry = []) := by
      simp [hne]
    have hsnd : (analyze_papers w st q n).2 = (analyze_papers_body w st q n).2 :=
      pyCatch_snd _ _
    have hbody : (analyze_papers_body w st q n).2.recentPapers =
        evaluate_papers (entries.map parseEntry) q w.currentYear := by
      simp only [analyze_papers_body, hsa]
      rw [if_neg hnil]
    refine ⟨by rw [hsnd, hbody], ?_⟩
    intro p hp
    rw [hsnd, hbody] at hp
    exact mem_evaluate_scored _ _ _ p hp
  · intro w st q n entries h hne p hp
    have hsa : search_arxiv w q n = .ok (entries.map parseEntry) := by
      unfold search_arxiv
      rw [h]
    have hnil : ¬ (entries.map parseEntry = []) := by
      simp [hne]
    have hsnd : (read_papers w st q n).2 = (read_papers_body w st q n).2 :=
      pyCatch_snd _ _
    have hbody : (read_papers_body w st q n).2.recentPapers =
        evaluate_papers (entries.map parseEntry) q w.currentYear := by
      simp only [read_papers_body, hsa]
      rw [if_neg hnil]
      rw [readLoop_keeps_cache w]
    rw [hsnd, hbody] at hp
    exact mem_evaluate_scored _ _ _ p hp
  · intro w st question n entries h hne p hp
    have hsa : search_arxiv w (pyRemoveChar '!' (pyRemoveChar '?' question)) n =
        .ok (entries.map parseEntry) := by
      unfold search_arxiv
      rw [h]
    have hnil : ¬ (entries.map parseEntry = []) := by
      simp [hne]
    have hsnd : (research_question w st question n).2 =
        (research_question_body w st question n).2 := pyCatch_snd _ _
    have hbody : (research_question_body w st question n).2.recentPapers =
        evaluate_papers (entries.map parseEntry)
          (pyRemoveChar '!' (pyRemoveChar '?' question)) w.currentYear := by
      simp only [research_question_body, hsa]
      rw [if_neg hnil]
      rw [hydrateAll_keeps_cache w]
    rw [hsnd, hbody] at hp
    exact mem_evaluate_scored _ _ _ p hp

/-- A world whose search finds nothing. -/
def wNoResults : World := { wOk with searchResult := fun _ _ => .ok [] }

/-- A stale cache from an earlier raw search: one unscored record. -/
def stStale : St := ⟨[paperNoUrl], [], []⟩

/-- Counterexample for C8 as stated: when the search of `analyze_papers`
returns no papers the function returns early without touching the cache, so
a record without a `relevance_score` can still sit in the cache after
`analyze_papers` returns. -/
theorem cache_scoring_states_cex :
    ¬ (∀ p ∈ (analyze_papers wNoResults stStale "q" 10).2.recentPapers,
        (p.relevance_score).isSome = true) := by decide

/-- Witness for C8: after a successful raw search the cache holds exactly
the parsed entries, unscored. -/
theorem cache_scoring_states_witness :
    (arxiv_search wBareEntry stEmpty "q" 10).2.recentPapers = [parseEntry entryBare] ∧
      (parseEntry entryBare).relevance_score = none := by
  have h := cache_scoring_states.1 wBareEntry stEmpty "q" 10 [entryBare] rfl
  refine ⟨h.1, h.2 (parseEntry entryBare) ?_⟩
  rw [h.1]
  exact List.mem_singleton_self _
